import Mathlib

/-!
Verification of the player statistics core of the OKC Thunder technical
project backend: the stat aggregator `get_player_summary_stats` and the
rank calculator `get_ranks` from `backend/app/helpers/players.py`, over the
Django models of `backend/app/dbmodels/models.py`.

The database is embedded as explicit lists of rows; Django query-set
operations (`filter`, `count`, `annotate(Count(...))`, `aggregate(Sum(...))`)
become list filters, lengths and sums over those rows.  Shot/pass/turnover
locations are `FloatField`s in the schema, but the code only copies them
into output records and never computes with them, so they are modelled by
an integer carrier `Coord` (any type with decidable equality would do).
Python integers are unbounded, so `points` and sums of points are `Int`
and row counts are `Nat`.
-/

namespace OkcStats

/-- Carrier for the x/y location coordinates.  The schema stores floats,
but the aggregator only moves location values into the output lists and
never performs arithmetic on them, so the carrier type is irrelevant to
every computed statistic; `Int` keeps equality decidable. -/
abbrev Coord := Int

/-- Row of the `players` table (`models.Player`). -/
structure Player where
  player_id : Int
  name : String
  team_id : Int
  deriving DecidableEq, Repr

/-- Row of the `shots` table (`models.Shot`). -/
structure Shot where
  id : Int
  player_id : Int
  game_id : Int
  points : Int
  shooting_foul_drawn : Bool
  shot_loc_x : Coord
  shot_loc_y : Coord
  action_type : String
  deriving DecidableEq, Repr

/-- Row of the `passes` table (`models.Pass`). -/
structure Pass where
  id : Int
  player_id : Int
  game_id : Int
  completed_pass : Bool
  potential_assist : Bool
  turnover : Bool
  ball_start_loc_x : Coord
  ball_start_loc_y : Coord
  ball_end_loc_x : Coord
  ball_end_loc_y : Coord
  action_type : String
  deriving DecidableEq, Repr

/-- Row of the `turnovers` table (`models.Turnover`). -/
structure Turnover where
  id : Int
  player_id : Int
  game_id : Int
  tov_loc_x : Coord
  tov_loc_y : Coord
  action_type : String
  deriving DecidableEq, Repr

/-- The relational store: the tables the helpers read.  (`teams` and
`games` are never read by the two core functions, so they are omitted.) -/
structure Database where
  players : List Player
  shots : List Shot
  passes : List Pass
  turnovers : List Turnover
  deriving DecidableEq, Repr

/-- One entry of a category's `shots` list in the summary output. -/
structure ShotDetail where
  loc : Coord × Coord
  points : Int
  deriving DecidableEq, Repr

/-- One entry of a category's `passes` list in the summary output. -/
structure PassDetail where
  startLoc : Coord × Coord
  endLoc : Coord × Coord
  isCompleted : Bool
  isPotentialAssist : Bool
  isTurnover : Bool
  deriving DecidableEq, Repr

/-- One entry of a category's `turnovers` list in the summary output. -/
structure TurnoverDetail where
  loc : Coord × Coord
  deriving DecidableEq, Repr

/-- The dict returned by the inner `get_action_stats` helper. -/
structure CategoryBreakdown where
  totalShotAttempts : Nat
  totalPoints : Int
  totalPasses : Nat
  totalPotentialAssists : Nat
  totalTurnovers : Nat
  totalPassingTurnovers : Nat
  shots : List ShotDetail
  passes : List PassDetail
  turnovers : List TurnoverDetail
  deriving DecidableEq, Repr

/-- The dict returned by `get_player_summary_stats` on success. -/
structure PlayerSummary where
  name : String
  playerID : Int
  totalShotAttempts : Nat
  totalPoints : Int
  totalPasses : Nat
  totalPotentialAssists : Nat
  totalTurnovers : Nat
  totalPassingTurnovers : Nat
  pickAndRollCount : Nat
  isolationCount : Nat
  postUpCount : Nat
  offBallScreenCount : Nat
  pickAndRoll : CategoryBreakdown
  isolation : CategoryBreakdown
  postUp : CategoryBreakdown
  offBallScreen : CategoryBreakdown
  deriving DecidableEq, Repr

/-- `Shot.objects.filter(player=player)` (players.py line 38). -/
def shotsOf (db : Database) (player : Player) : List Shot :=
  db.shots.filter (fun s => s.player_id == player.player_id)

/-- `Pass.objects.filter(player=player)` (players.py line 39). -/
def passesOf (db : Database) (player : Player) : List Pass :=
  db.passes.filter (fun p => p.player_id == player.player_id)

/-- `Turnover.objects.filter(player=player)` (players.py line 40). -/
def turnoversOf (db : Database) (player : Player) : List Turnover :=
  db.turnovers.filter (fun t => t.player_id == player.player_id)

/-- The inner helper `get_action_stats(action_type)` of
`get_player_summary_stats` (players.py lines 42-93), with the enclosing
function's `shots`, `passes`, `turnovers` query sets passed explicitly. -/
def get_action_stats (shots : List Shot) (passes : List Pass)
    (turnovers : List Turnover) (action_type : String) : CategoryBreakdown :=
  { totalShotAttempts := (shots.filter (fun s => s.action_type == action_type)).length
    totalPoints := ((shots.filter (fun s => s.action_type == action_type)).map Shot.points).sum
    totalPasses := (passes.filter (fun p => p.action_type == action_type)).length
    totalPotentialAssists :=
      ((passes.filter (fun p => p.action_type == action_type)).filter
        (fun p => p.potential_assist)).length
    totalTurnovers :=
      (turnovers.filter (fun t => t.action_type == action_type)).length +
      ((passes.filter (fun p => p.action_type == action_type)).filter
        (fun p => p.turnover)).length
    totalPassingTurnovers :=
      ((passes.filter (fun p => p.action_type == action_type)).filter
        (fun p => p.turnover)).length
    shots := (shots.filter (fun s => s.action_type == action_type)).map
      (fun s => { loc := (s.shot_loc_x, s.shot_loc_y), points := s.points })
    passes := (passes.filter (fun p => p.action_type == action_type)).map
      (fun p => { startLoc := (p.ball_start_loc_x, p.ball_start_loc_y)
                  endLoc := (p.ball_end_loc_x, p.ball_end_loc_y)
                  isCompleted := p.completed_pass
                  isPotentialAssist := p.potential_assist
                  isTurnover := p.turnover })
    turnovers := (turnovers.filter (fun t => t.action_type == action_type)).map
      (fun t => { loc := (t.tov_loc_x, t.tov_loc_y) }) }

/-- The per-category action count of players.py lines 110-124:
(shots in category) + (passes in category) + (standalone turnovers in
category), over the given player's query sets. -/
def actionCountOf (db : Database) (player : Player) (action_type : String) : Nat :=
  ((shotsOf db player).filter (fun s => s.action_type == action_type)).length +
  ((passesOf db player).filter (fun p => p.action_type == action_type)).length +
  ((turnoversOf db player).filter (fun t => t.action_type == action_type)).length

/-- Body of `get_player_summary_stats` after the player has been resolved
(players.py lines 37-143): the summary dict built for `player`. -/
def summaryBody (db : Database) (player : Player) : PlayerSummary :=
  { name := player.name
    playerID := player.player_id
    totalShotAttempts := (shotsOf db player).length
    totalPoints := ((shotsOf db player).map Shot.points).sum
    totalPasses := (passesOf db player).length
    totalPotentialAssists := ((passesOf db player).filter (fun p => p.potential_assist)).length
    totalTurnovers := (turnoversOf db player).length +
      ((passesOf db player).filter (fun p => p.turnover)).length
    totalPassingTurnovers := ((passesOf db player).filter (fun p => p.turnover)).length
    pickAndRollCount := actionCountOf db player "pickAndRoll"
    isolationCount := actionCountOf db player "isolation"
    postUpCount := actionCountOf db player "postUp"
    offBallScreenCount := actionCountOf db player "offBallScreen"
    pickAndRoll := get_action_stats (shotsOf db player) (passesOf db player)
      (turnoversOf db player) "pickAndRoll"
    isolation := get_action_stats (shotsOf db player) (passesOf db player)
      (turnoversOf db player) "isolation"
    postUp := get_action_stats (shotsOf db player) (passesOf db player)
      (turnoversOf db player) "postUp"
    offBallScreen := get_action_stats (shotsOf db player) (passesOf db player)
      (turnoversOf db player) "offBallScreen" }

/-- Outcome of calling a Python function: a returned value, or an uncaught
exception (carrying the exception class name). -/
inductive PyResult (α : Type) where
  | ok (value : α)
  | exn (message : String)
  deriving DecidableEq, Repr

/-- The two dict shapes `get_player_summary_stats` can return: the error
dict `{"error": f"Player with ID {player_id} not found"}`, which carries
the requested id string, or a summary dict. -/
inductive SummaryOutput where
  | errorDict (requestedId : String)
  | summary (s : PlayerSummary)
  deriving DecidableEq, Repr

/-- Python whitespace stripped by `int(str)` (ASCII subset). -/
def isPySpace (c : Char) : Bool :=
  c == ' ' || c == '\t' || c == '\n' || c == '\r' ||
  c == Char.ofNat 11 || c == Char.ofNat 12

/-- Digit-sequence part of CPython's base-10 `int(str)` grammar:
digits with single underscores allowed only between digits.  `prev` is
true when the previous character was a digit. -/
def digitsVal (acc : Nat) (prev : Bool) : List Char → Option Nat
  | [] => if prev then some acc else none
  | c :: cs =>
    if c.isDigit then digitsVal (10 * acc + (c.toNat - 48)) true cs
    else if c == '_' && prev then digitsVal acc false cs
    else none

/-- CPython's `int(s)` on a string (ASCII subset): strip whitespace, an
optional sign, then a nonempty underscore-separated digit sequence;
`none` when `int` would raise `ValueError`. -/
def pyParseInt (s : String) : Option Int :=
  match (s.toList.dropWhile isPySpace).reverse.dropWhile isPySpace |>.reverse with
  | [] => none
  | c :: cs =>
    if c == '-' then (digitsVal 0 false cs).map (fun n => -(n : Int))
    else if c == '+' then (digitsVal 0 false cs).map (fun n => (n : Int))
    else (digitsVal 0 false (c :: cs)).map (fun n => (n : Int))

/-- `get_player_summary_stats(player_id)` (players.py lines 12-143).
`int(player_id)` raises an uncaught `ValueError` when the string is not an
integer literal (the `except` clause only catches `Player.DoesNotExist`);
`Player.objects.get(player_id=...)` on the integer primary key is a
`find?` over the players table; on `DoesNotExist` the error dict carrying
the requested id string is returned. -/
def get_player_summary_stats (db : Database) (player_id : String) :
    PyResult SummaryOutput :=
  match pyParseInt player_id with
  | none => PyResult.exn "ValueError"
  | some n =>
    match db.players.find? (fun p => p.player_id == n) with
    | none => PyResult.ok (SummaryOutput.errorDict player_id)
    | some player => PyResult.ok (SummaryOutput.summary (summaryBody db player))

/-- The ten per-metric ranks returned by `get_ranks` (players.py
lines 252-263). -/
structure RankSet where
  totalShotAttemptsRank : Nat
  totalPointsRank : Nat
  totalPassesRank : Nat
  totalPotentialAssistsRank : Nat
  totalTurnoversRank : Nat
  totalPassingTurnoversRank : Nat
  pickAndRollCountRank : Nat
  isolationCountRank : Nat
  postUpCountRank : Nat
  offBallScreenCountRank : Nat
  deriving DecidableEq, Repr

/-- The `player_summary` dict as consumed by `get_ranks`: only the ten
metric keys are ever read, each through `player_summary.get(key, 0)`, so a
key may be absent (`none`).  Values are Python ints. -/
structure RankTargets where
  totalShotAttempts : Option Int
  totalPoints : Option Int
  totalPasses : Option Int
  totalPotentialAssists : Option Int
  totalTurnovers : Option Int
  totalPassingTurnovers : Option Int
  pickAndRollCount : Option Int
  isolationCount : Option Int
  postUpCount : Option Int
  offBallScreenCount : Option Int
  deriving DecidableEq, Repr

/-- View of a summary dict produced by `get_player_summary_stats` as the
dict handed to `get_ranks`: all ten metric keys present. -/
def toRankTargets (s : PlayerSummary) : RankTargets :=
  { totalShotAttempts := some (s.totalShotAttempts : Int)
    totalPoints := some s.totalPoints
    totalPasses := some (s.totalPasses : Int)
    totalPotentialAssists := some (s.totalPotentialAssists : Int)
    totalTurnovers := some (s.totalTurnovers : Int)
    totalPassingTurnovers := some (s.totalPassingTurnovers : Int)
    pickAndRollCount := some (s.pickAndRollCount : Int)
    isolationCount := some (s.isolationCount : Int)
    postUpCount := some (s.postUpCount : Int)
    offBallScreenCount := some (s.offBallScreenCount : Int) }

/-- `Shot.objects.filter(player=p).aggregate(Sum('points'))['points__sum']
or 0` (players.py line 187): the sum of the player's shot points, with
`None` (no shots) collapsing to 0 exactly as the empty sum does. -/
def pointsSumOf (db : Database) (p : Player) : Int :=
  ((shotsOf db p).map Shot.points).sum

/-- Per-player value computed by the totalTurnovers branch of
`calculate_rank` (players.py lines 201-204):
`Player.objects.annotate(tov_count=Count('turnovers') + Count('passes',
filter=Q(passes__turnover=True)))`.  Combining aggregations over two
different reverse relations in one `annotate()` makes Django LEFT JOIN
both relations in a single grouped query, so each count ranges over the
joined row set — the documented wrong-result behavior of multiple
aggregations.  With `t` standalone turnover rows, `pl` pass rows and
`ptov` turnover-flagged pass rows for the player, the joined rows number
`max(t,1) * max(pl,1)`, `Count('turnovers')` counts the rows with a
non-null turnover (`t` when `pl = 0`, else `t * pl`) and the filtered
`Count('passes')` counts the rows with a turnover-flagged pass (`ptov`
when `t = 0`, else `t * ptov`).  The result is inflated, not the exact
`t + ptov` of the summary logic, whenever the player has both turnover
rows and more than one pass row (or a turnover-flagged pass). -/
def djangoTovCount (db : Database) (p : Player) : Nat :=
  (if (passesOf db p).length = 0 then (turnoversOf db p).length
   else (turnoversOf db p).length * (passesOf db p).length) +
  (if (turnoversOf db p).length = 0 then ((passesOf db p).filter (fun q => q.turnover)).length
   else (turnoversOf db p).length * ((passesOf db p).filter (fun q => q.turnover)).length)

/-- The inner helper `calculate_rank(stat_name, player_value)` of
`get_ranks` (players.py lines 166-250).  Each branch counts, over
`Player.objects.all()`, the players whose recomputed value for the stat
strictly exceeds `player_value`, and returns that count plus one.  The
single-relation `annotate(Count(...))` branches and the explicit loops
reduce to exact filtered counts over the rows; the totalTurnovers branch
is the one branch that combines two aggregations in a single `annotate()`
and therefore computes the inflated joined count `djangoTovCount`, not
the per-player turnover count of the summary logic.  The final `else`
branch of the source returns 1 without counting. -/
def calculate_rank (db : Database) (stat_name : String) (player_value : Int) : Nat :=
  if stat_name == "totalShotAttempts" then
    (db.players.filter (fun p => ((shotsOf db p).length : Int) > player_value)).length + 1
  else if stat_name == "totalPoints" then
    (db.players.filter (fun p => pointsSumOf db p > player_value)).length + 1
  else if stat_name == "totalPasses" then
    (db.players.filter (fun p => ((passesOf db p).length : Int) > player_value)).length + 1
  else if stat_name == "totalPotentialAssists" then
    (db.players.filter (fun p =>
      ((((passesOf db p).filter (fun q => q.potential_assist)).length : Nat) : Int) > player_value)).length + 1
  else if stat_name == "totalTurnovers" then
    (db.players.filter (fun p => (djangoTovCount db p : Int) > player_value)).length + 1
  else if stat_name == "totalPassingTurnovers" then
    (db.players.filter (fun p =>
      ((((passesOf db p).filter (fun q => q.turnover)).length : Nat) : Int) > player_value)).length + 1
  else if stat_name == "pickAndRollCount" then
    (db.players.filter (fun p => (actionCountOf db p "pickAndRoll" : Int) > player_value)).length + 1
  else if stat_name == "isolationCount" then
    (db.players.filter (fun p => (actionCountOf db p "isolation" : Int) > player_value)).length + 1
  else if stat_name == "postUpCount" then
    (db.players.filter (fun p => (actionCountOf db p "postUp" : Int) > player_value)).length + 1
  else if stat_name == "offBallScreenCount" then
    (db.players.filter (fun p => (actionCountOf db p "offBallScreen" : Int) > player_value)).length + 1
  else 1

/-- `get_ranks(player_id, player_summary)` (players.py lines 146-263).
The `player_id` argument is accepted but never read by the source body;
every target value comes from `player_summary.get(key, 0)`. -/
def get_ranks (db : Database) (player_id : String) (player_summary : RankTargets) : RankSet :=
  { totalShotAttemptsRank :=
      calculate_rank db "totalShotAttempts" (player_summary.totalShotAttempts.getD 0)
    totalPointsRank :=
      calculate_rank db "totalPoints" (player_summary.totalPoints.getD 0)
    totalPassesRank :=
      calculate_rank db "totalPasses" (player_summary.totalPasses.getD 0)
    totalPotentialAssistsRank :=
      calculate_rank db "totalPotentialAssists" (player_summary.totalPotentialAssists.getD 0)
    totalTurnoversRank :=
      calculate_rank db "totalTurnovers" (player_summary.totalTurnovers.getD 0)
    totalPassingTurnoversRank :=
      calculate_rank db "totalPassingTurnovers" (player_summary.totalPassingTurnovers.getD 0)
    pickAndRollCountRank :=
      calculate_rank db "pickAndRollCount" (player_summary.pickAndRollCount.getD 0)
    isolationCountRank :=
      calculate_rank db "isolationCount" (player_summary.isolationCount.getD 0)
    postUpCountRank :=
      calculate_rank db "postUpCount" (player_summary.postUpCount.getD 0)
    offBallScreenCountRank :=
      calculate_rank db "offBallScreenCount" (player_summary.offBallScreenCount.getD 0) }

/-- The ten metric names tracked by `get_ranks`. -/
def tenStatNames : List String :=
  ["totalShotAttempts", "totalPoints", "totalPasses", "totalPotentialAssists",
   "totalTurnovers", "totalPassingTurnovers", "pickAndRollCount",
   "isolationCount", "postUpCount", "offBallScreenCount"]

/-- The nine metric names whose `calculate_rank` branch recomputes the
exact per-player value of the summary logic; totalTurnovers is excluded
because its branch computes the inflated joined count `djangoTovCount`. -/
def nineStatNames : List String :=
  ["totalShotAttempts", "totalPoints", "totalPasses", "totalPotentialAssists",
   "totalPassingTurnovers", "pickAndRollCount",
   "isolationCount", "postUpCount", "offBallScreenCount"]

/-- The value a summary dict assigns to one of the ten metric names
(0 for any other name). -/
def metricOfSummary (s : PlayerSummary) (stat_name : String) : Int :=
  if stat_name == "totalShotAttempts" then (s.totalShotAttempts : Int)
  else if stat_name == "totalPoints" then s.totalPoints
  else if stat_name == "totalPasses" then (s.totalPasses : Int)
  else if stat_name == "totalPotentialAssists" then (s.totalPotentialAssists : Int)
  else if stat_name == "totalTurnovers" then (s.totalTurnovers : Int)
  else if stat_name == "totalPassingTurnovers" then (s.totalPassingTurnovers : Int)
  else if stat_name == "pickAndRollCount" then (s.pickAndRollCount : Int)
  else if stat_name == "isolationCount" then (s.isolationCount : Int)
  else if stat_name == "postUpCount" then (s.postUpCount : Int)
  else if stat_name == "offBallScreenCount" then (s.offBallScreenCount : Int)
  else 0

/-- The target value `player_summary.get(stat_name, 0)` read by
`get_ranks` for one of the ten metric names (0 for any other name). -/
def targetOf (t : RankTargets) (stat_name : String) : Int :=
  if stat_name == "totalShotAttempts" then t.totalShotAttempts.getD 0
  else if stat_name == "totalPoints" then t.totalPoints.getD 0
  else if stat_name == "totalPasses" then t.totalPasses.getD 0
  else if stat_name == "totalPotentialAssists" then t.totalPotentialAssists.getD 0
  else if stat_name == "totalTurnovers" then t.totalTurnovers.getD 0
  else if stat_name == "totalPassingTurnovers" then t.totalPassingTurnovers.getD 0
  else if stat_name == "pickAndRollCount" then t.pickAndRollCount.getD 0
  else if stat_name == "isolationCount" then t.isolationCount.getD 0
  else if stat_name == "postUpCount" then t.postUpCount.getD 0
  else if stat_name == "offBallScreenCount" then t.offBallScreenCount.getD 0
  else 0

/-- The rank a `RankSet` assigns to one of the ten metric names (0 for
any other name). -/
def rankField (r : RankSet) (stat_name : String) : Nat :=
  if stat_name == "totalShotAttempts" then r.totalShotAttemptsRank
  else if stat_name == "totalPoints" then r.totalPointsRank
  else if stat_name == "totalPasses" then r.totalPassesRank
  else if stat_name == "totalPotentialAssists" then r.totalPotentialAssistsRank
  else if stat_name == "totalTurnovers" then r.totalTurnoversRank
  else if stat_name == "totalPassingTurnovers" then r.totalPassingTurnoversRank
  else if stat_name == "pickAndRollCount" then r.pickAndRollCountRank
  else if stat_name == "isolationCount" then r.isolationCountRank
  else if stat_name == "postUpCount" then r.postUpCountRank
  else if stat_name == "offBallScreenCount" then r.offBallScreenCountRank
  else 0

/-! ### Concrete test fixtures -/

/-- Test player 1. -/
def pA1 : Player := { player_id := 1, name := "Alice", team_id := 10 }

/-- Test player 2. -/
def pA2 : Player := { player_id := 2, name := "Bob", team_id := 10 }

/-- Test player 3. -/
def pA3 : Player := { player_id := 3, name := "Cara", team_id := 11 }

/-- A small concrete store: three players; player 1 has two shots (25+25
points), two passes (one potential assist, one passing turnover) and one
standalone turnover, player 2 one 50-point shot, player 3 one 40-point
shot, so the league totalPoints values are 50, 50, 40. -/
def dbA : Database :=
  { players := [pA1, pA2, pA3]
    shots :=
      [ { id := 101, player_id := 1, game_id := 1, points := 25, shooting_foul_drawn := false,
          shot_loc_x := 1, shot_loc_y := 2, action_type := "pickAndRoll" },
        { id := 102, player_id := 1, game_id := 1, points := 25, shooting_foul_drawn := true,
          shot_loc_x := 3, shot_loc_y := 4, action_type := "isolation" },
        { id := 103, player_id := 2, game_id := 2, points := 50, shooting_foul_drawn := false,
          shot_loc_x := 5, shot_loc_y := 6, action_type := "postUp" },
        { id := 104, player_id := 3, game_id := 2, points := 40, shooting_foul_drawn := false,
          shot_loc_x := 7, shot_loc_y := 8, action_type := "offBallScreen" } ]
    passes :=
      [ { id := 201, player_id := 1, game_id := 1, completed_pass := true,
          potential_assist := true, turnover := false,
          ball_start_loc_x := 0, ball_start_loc_y := 1, ball_end_loc_x := 2, ball_end_loc_y := 3,
          action_type := "pickAndRoll" },
        { id := 202, player_id := 1, game_id := 1, completed_pass := false,
          potential_assist := false, turnover := true,
          ball_start_loc_x := 4, ball_start_loc_y := 5, ball_end_loc_x := 6, ball_end_loc_y := 7,
          action_type := "postUp" } ]
    turnovers :=
      [ { id := 301, player_id := 1, game_id := 1, tov_loc_x := 9, tov_loc_y := 9,
          action_type := "isolation" } ] }

/-- Test player whose only shot carries an action type outside the four
recognized categories. -/
def pC2 : Player := { player_id := 7, name := "Eve", team_id := 20 }

/-- A store whose single shot has the unrecognized action type
"transition": it counts toward the overall totals but toward no category
bucket. -/
def dbC2 : Database :=
  { players := [pC2]
    shots :=
      [ { id := 401, player_id := 7, game_id := 3, points := 2, shooting_foul_drawn := false,
          shot_loc_x := 0, shot_loc_y := 0, action_type := "transition" } ]
    passes := []
    turnovers := [] }

/-- A shot of player 1 with an action type outside the four categories. -/
def shC4 : Shot :=
  { id := 901, player_id := 1, game_id := 1, points := 3, shooting_foul_drawn := false,
    shot_loc_x := 5, shot_loc_y := 5, action_type := "transition" }

/-- A pass of player 1 with an action type outside the four categories. -/
def paC4 : Pass :=
  { id := 902, player_id := 1, game_id := 1, completed_pass := true,
    potential_assist := false, turnover := true,
    ball_start_loc_x := 0, ball_start_loc_y := 0, ball_end_loc_x := 1, ball_end_loc_y := 1,
    action_type := "fastBreak" }

/-- A turnover of player 1 with an action type outside the four
categories. -/
def tvC4 : Turnover :=
  { id := 903, player_id := 1, game_id := 1, tov_loc_x := 2, tov_loc_y := 2,
    action_type := "handOff" }

/-- The player of the worked example of the spec. -/
def pC7 : Player := { player_id := 5, name := "P", team_id := 30 }

/-- The store of the worked example: three pick-and-roll shots worth
2, 2, 3 points and one isolation shot worth 0 points, no passes or
turnovers. -/
def dbC7 : Database :=
  { players := [pC7]
    shots :=
      [ { id := 501, player_id := 5, game_id := 4, points := 2, shooting_foul_drawn := false,
          shot_loc_x := 1, shot_loc_y := 1, action_type := "pickAndRoll" },
        { id := 502, player_id := 5, game_id := 4, points := 2, shooting_foul_drawn := false,
          shot_loc_x := 2, shot_loc_y := 2, action_type := "pickAndRoll" },
        { id := 503, player_id := 5, game_id := 4, points := 3, shooting_foul_drawn := true,
          shot_loc_x := 3, shot_loc_y := 3, action_type := "pickAndRoll" },
        { id := 504, player_id := 5, game_id := 4, points := 0, shooting_foul_drawn := false,
          shot_loc_x := 4, shot_loc_y := 4, action_type := "isolation" } ]
    passes := []
    turnovers := [] }

/-- The summary dict with every absent metric key replaced by an explicit
0, the default that `player_summary.get(key, 0)` substitutes. -/
def fillAbsent (t : RankTargets) : RankTargets :=
  { totalShotAttempts := some (t.totalShotAttempts.getD 0)
    totalPoints := some (t.totalPoints.getD 0)
    totalPasses := some (t.totalPasses.getD 0)
    totalPotentialAssists := some (t.totalPotentialAssists.getD 0)
    totalTurnovers := some (t.totalTurnovers.getD 0)
    totalPassingTurnovers := some (t.totalPassingTurnovers.getD 0)
    pickAndRollCount := some (t.pickAndRollCount.getD 0)
    isolationCount := some (t.isolationCount.getD 0)
    postUpCount := some (t.postUpCount.getD 0)
    offBallScreenCount := some (t.offBallScreenCount.getD 0) }

/-- Agreement of two category breakdowns on all six scalar metrics (the
detail lists are allowed to differ). -/
def breakdownScalarsAgree (b b2 : CategoryBreakdown) : Prop :=
  b.totalShotAttempts = b2.totalShotAttempts ∧ b.totalPoints = b2.totalPoints ∧
  b.totalPasses = b2.totalPasses ∧ b.totalPotentialAssists = b2.totalPotentialAssists ∧
  b.totalTurnovers = b2.totalTurnovers ∧ b.totalPassingTurnovers = b2.totalPassingTurnovers

/-- Agreement of two summaries on the name, the id, every overall scalar,
every action count, and every category's scalar metrics — everything
except the order-dependent detail lists. -/
def scalarsAgree (s s2 : PlayerSummary) : Prop :=
  s.name = s2.name ∧ s.playerID = s2.playerID ∧
  s.totalShotAttempts = s2.totalShotAttempts ∧ s.totalPoints = s2.totalPoints ∧
  s.totalPasses = s2.totalPasses ∧ s.totalPotentialAssists = s2.totalPotentialAssists ∧
  s.totalTurnovers = s2.totalTurnovers ∧ s.totalPassingTurnovers = s2.totalPassingTurnovers ∧
  s.pickAndRollCount = s2.pickAndRollCount ∧ s.isolationCount = s2.isolationCount ∧
  s.postUpCount = s2.postUpCount ∧ s.offBallScreenCount = s2.offBallScreenCount ∧
  breakdownScalarsAgree s.pickAndRoll s2.pickAndRoll ∧
  breakdownScalarsAgree s.isolation s2.isolation ∧
  breakdownScalarsAgree s.postUp s2.postUp ∧
  breakdownScalarsAgree s.offBallScreen s2.offBallScreen

/-! ### Shared lemmas -/

/-- A list whose elements all carry one of the four category strings has
its `q`-filtered length split across the four category filters. -/
theorem filtered_length_four_split {α : Type} (l : List α) (f : α → String) (q : α → Bool)
    (h : ∀ x ∈ l, f x = "pickAndRoll" ∨ f x = "isolation" ∨ f x = "postUp" ∨
      f x = "offBallScreen") :
    (l.filter q).length =
      ((l.filter (fun x => f x == "pickAndRoll")).filter q).length +
      ((l.filter (fun x => f x == "isolation")).filter q).length +
      ((l.filter (fun x => f x == "postUp")).filter q).length +
      ((l.filter (fun x => f x == "offBallScreen")).filter q).length := by
  induction l with
  | nil => simp
  | cons x xs ih =>
    have hx := h x (List.mem_cons_self x xs)
    have hxs : ∀ y ∈ xs, f y = "pickAndRoll" ∨ f y = "isolation" ∨ f y = "postUp" ∨
        f y = "offBallScreen" := fun y hy => h y (List.mem_cons_of_mem x hy)
    rcases hx with hx | hx | hx | hx <;> cases hq : q x <;>
      simp [List.filter_cons, hx, hq, ih hxs] <;> omega

/-- A list whose elements all carry one of the four category strings has
its length split across the four category filters. -/
theorem length_four_split {α : Type} (l : List α) (f : α → String)
    (h : ∀ x ∈ l, f x = "pickAndRoll" ∨ f x = "isolation" ∨ f x = "postUp" ∨
      f x = "offBallScreen") :
    l.length =
      (l.filter (fun x => f x == "pickAndRoll")).length +
      (l.filter (fun x => f x == "isolation")).length +
      (l.filter (fun x => f x == "postUp")).length +
      (l.filter (fun x => f x == "offBallScreen")).length := by
  have := filtered_length_four_split l f (fun _ => true) h
  simpa using this

/-- A list whose elements all carry one of the four category strings has
its `g`-sum split across the four category filters. -/
theorem sum_four_split {α : Type} (l : List α) (f : α → String) (g : α → Int)
    (h : ∀ x ∈ l, f x = "pickAndRoll" ∨ f x = "isolation" ∨ f x = "postUp" ∨
      f x = "offBallScreen") :
    (l.map g).sum =
      ((l.filter (fun x => f x == "pickAndRoll")).map g).sum +
      ((l.filter (fun x => f x == "isolation")).map g).sum +
      ((l.filter (fun x => f x == "postUp")).map g).sum +
      ((l.filter (fun x => f x == "offBallScreen")).map g).sum := by
  induction l with
  | nil => simp
  | cons x xs ih =>
    have hx := h x (List.mem_cons_self x xs)
    have hxs : ∀ y ∈ xs, f y = "pickAndRoll" ∨ f y = "isolation" ∨ f y = "postUp" ∨
        f y = "offBallScreen" := fun y hy => h y (List.mem_cons_of_mem x hy)
    rcases hx with hx | hx | hx | hx <;>
      simp [List.filter_cons, hx, ih hxs] <;> omega

/-- For nine of the ten metrics the rank field produced by `get_ranks`
equals the count of players whose summary-derived metric strictly exceeds
the target read from the summary dict, plus one.  The left side goes
through the metric recomputation inside `calculate_rank`; the right side
goes through the summary builder `summaryBody`, so this identifies the
two derivations.  The totalTurnovers branch is excluded: it counts
against the inflated `djangoTovCount`, not the summary-logic turnover
count, and the formula is false of it (see the C1 theorem). -/
theorem rank_formula (db : Database) (player_id : String) (t : RankTargets)
    (stat : String) (h : stat ∈ nineStatNames) :
    rankField (get_ranks db player_id t) stat =
      (db.players.filter
        (fun q => metricOfSummary (summaryBody db q) stat > targetOf t stat)).length + 1 := by
  fin_cases h <;> rfl

/-- On a summary dict produced by the aggregator, every `get(key, 0)`
read by `get_ranks` returns the summary's own metric value. -/
theorem targetOf_toRankTargets (s : PlayerSummary) (stat : String) :
    targetOf (toRankTargets s) stat = metricOfSummary s stat := rfl

/-- C1: the rank invariant is refuted on the code at the totalTurnovers
metric.  At the store `dbA`, player 1 has summary totalTurnovers 2 (one
standalone turnover plus one turnover pass), and no player's
summary-logic totalTurnovers exceeds 2, so the claimed rank is
1 + 0 = 1; but the totalTurnovers branch of `calculate_rank` evaluates
the combined-annotate joined count `djangoTovCount`, which is
1 * 2 + 1 * 1 = 3 for player 1, so player 1 counts as strictly greater
than their own target and `get_ranks` returns totalTurnoversRank 2. -/
theorem C1_rank_invariant_failure :
    (summaryBody dbA pA1).totalTurnovers = 2
    ∧ djangoTovCount dbA pA1 = 3
    ∧ (get_ranks dbA "1" (toRankTargets (summaryBody dbA pA1))).totalTurnoversRank = 2
    ∧ (dbA.players.filter (fun q => metricOfSummary (summaryBody dbA q) "totalTurnovers" >
        targetOf (toRankTargets (summaryBody dbA pA1)) "totalTurnovers")).length = 0
    ∧ (get_ranks dbA "1" (toRankTargets (summaryBody dbA pA1))).totalTurnoversRank ≠
      1 + (dbA.players.filter (fun q => metricOfSummary (summaryBody dbA q) "totalTurnovers" >
        targetOf (toRankTargets (summaryBody dbA pA1)) "totalTurnovers")).length := by
  refine ⟨?_, ?_, ?_, ?_, ?_⟩ <;> decide

/-- `get_player_summary_stats` returns a summary dict exactly when the id
string parses as an integer that resolves to a player row, and the dict
returned is `summaryBody` of that player. -/
theorem summary_ok_iff (db : Database) (pid : String) (s : PlayerSummary) :
    get_player_summary_stats db pid = PyResult.ok (SummaryOutput.summary s) ↔
    ∃ n, pyParseInt pid = some n ∧
      ∃ p, db.players.find? (fun q => q.player_id == n) = some p ∧ s = summaryBody db p := by
  unfold get_player_summary_stats
  cases hn : pyParseInt pid with
  | none => simp
  | some n =>
    cases hp : db.players.find? (fun q => q.player_id == n) with
    | none => simp [hp]
    | some p => simp [hp, eq_comm]

/-- In every breakdown built by `get_action_stats`, the detail lists have
the lengths announced by the scalar fields. -/
theorem breakdown_lists_consistent (sh : List Shot) (pa : List Pass) (tov : List Turnover)
    (a : String) :
    (get_action_stats sh pa tov a).shots.length = (get_action_stats sh pa tov a).totalShotAttempts
    ∧ (get_action_stats sh pa tov a).passes.length = (get_action_stats sh pa tov a).totalPasses
    ∧ (get_action_stats sh pa tov a).turnovers.length =
      (get_action_stats sh pa tov a).totalTurnovers -
        (get_action_stats sh pa tov a).totalPassingTurnovers := by
  refine ⟨?_, ?_, ?_⟩ <;> simp [get_action_stats]

/-- C3: in every summary returned by `get_player_summary_stats`,
totalTurnovers equals totalPassingTurnovers plus the count of standalone
turnover rows, both overall and inside each of the four category
breakdowns. -/
theorem C3_turnover_invariant (db : Database) (pid : String) (s : PlayerSummary)
    (hok : get_player_summary_stats db pid = PyResult.ok (SummaryOutput.summary s)) :
    (s.totalTurnovers = s.totalPassingTurnovers +
      (db.turnovers.filter (fun t => t.player_id == s.playerID)).length)
    ∧ (s.pickAndRoll.totalTurnovers = s.pickAndRoll.totalPassingTurnovers +
      ((db.turnovers.filter (fun t => t.player_id == s.playerID)).filter
        (fun t => t.action_type == "pickAndRoll")).length)
    ∧ (s.isolation.totalTurnovers = s.isolation.totalPassingTurnovers +
      ((db.turnovers.filter (fun t => t.player_id == s.playerID)).filter
        (fun t => t.action_type == "isolation")).length)
    ∧ (s.postUp.totalTurnovers = s.postUp.totalPassingTurnovers +
      ((db.turnovers.filter (fun t => t.player_id == s.playerID)).filter
        (fun t => t.action_type == "postUp")).length)
    ∧ (s.offBallScreen.totalTurnovers = s.offBallScreen.totalPassingTurnovers +
      ((db.turnovers.filter (fun t => t.player_id == s.playerID)).filter
        (fun t => t.action_type == "offBallScreen")).length) := by
  rcases (summary_ok_iff db pid s).mp hok with ⟨n, hn, p, hp, rfl⟩
  refine ⟨?_, ?_, ?_, ?_, ?_⟩ <;>
    simp [summaryBody, get_action_stats, turnoversOf] <;> omega

/-- Witness for C3 at the concrete store `dbA`, player id "1". -/
theorem C3_turnover_invariant_witness :
    get_player_summary_stats dbA "1" = PyResult.ok (SummaryOutput.summary (summaryBody dbA pA1))
    ∧ ((summaryBody dbA pA1).totalTurnovers = (summaryBody dbA pA1).totalPassingTurnovers +
        (dbA.turnovers.filter (fun t => t.player_id == (summaryBody dbA pA1).playerID)).length
      ∧ ((summaryBody dbA pA1).pickAndRoll.totalTurnovers =
          (summaryBody dbA pA1).pickAndRoll.totalPassingTurnovers +
          ((dbA.turnovers.filter (fun t => t.player_id == (summaryBody dbA pA1).playerID)).filter
            (fun t => t.action_type == "pickAndRoll")).length)
      ∧ ((summaryBody dbA pA1).isolation.totalTurnovers =
          (summaryBody dbA pA1).isolation.totalPassingTurnovers +
          ((dbA.turnovers.filter (fun t => t.player_id == (summaryBody dbA pA1).playerID)).filter
            (fun t => t.action_type == "isolation")).length)
      ∧ ((summaryBody dbA pA1).postUp.totalTurnovers =
          (summaryBody dbA pA1).postUp.totalPassingTurnovers +
          ((dbA.turnovers.filter (fun t => t.player_id == (summaryBody dbA pA1).playerID)).filter
            (fun t => t.action_type == "postUp")).length)
      ∧ ((summaryBody dbA pA1).offBallScreen.totalTurnovers =
          (summaryBody dbA pA1).offBallScreen.totalPassingTurnovers +
          ((dbA.turnovers.filter (fun t => t.player_id == (summaryBody dbA pA1).playerID)).filter
            (fun t => t.action_type == "offBallScreen")).length)) :=
  ⟨by decide, C3_turnover_invariant dbA "1" (summaryBody dbA pA1) (by decide)⟩

/-- C5: in every summary returned by `get_player_summary_stats`, each of
the four action counts equals the number of that player's shots in the
category plus the passes in the category plus the standalone turnovers in
the category. -/
theorem C5_action_counts (db : Database) (pid : String) (s : PlayerSummary)
    (hok : get_player_summary_stats db pid = PyResult.ok (SummaryOutput.summary s)) :
    (s.pickAndRollCount =
      ((db.shots.filter (fun e => e.player_id == s.playerID)).filter
        (fun e => e.action_type == "pickAndRoll")).length +
      ((db.passes.filter (fun e => e.player_id == s.playerID)).filter
        (fun e => e.action_type == "pickAndRoll")).length +
      ((db.turnovers.filter (fun e => e.player_id == s.playerID)).filter
        (fun e => e.action_type == "pickAndRoll")).length)
    ∧ (s.isolationCount =
      ((db.shots.filter (fun e => e.player_id == s.playerID)).filter
        (fun e => e.action_type == "isolation")).length +
      ((db.passes.filter (fun e => e.player_id == s.playerID)).filter
        (fun e => e.action_type == "isolation")).length +
      ((db.turnovers.filter (fun e => e.player_id == s.playerID)).filter
        (fun e => e.action_type == "isolation")).length)
    ∧ (s.postUpCount =
      ((db.shots.filter (fun e => e.player_id == s.playerID)).filter
        (fun e => e.action_type == "postUp")).length +
      ((db.passes.filter (fun e => e.player_id == s.playerID)).filter
        (fun e => e.action_type == "postUp")).length +
      ((db.turnovers.filter (fun e => e.player_id == s.playerID)).filter
        (fun e => e.action_type == "postUp")).length)
    ∧ (s.offBallScreenCount =
      ((db.shots.filter (fun e => e.player_id == s.playerID)).filter
        (fun e => e.action_type == "offBallScreen")).length +
      ((db.passes.filter (fun e => e.player_id == s.playerID)).filter
        (fun e => e.action_type == "offBallScreen")).length +
      ((db.turnovers.filter (fun e => e.player_id == s.playerID)).filter
        (fun e => e.action_type == "offBallScreen")).length) := by
  rcases (summary_ok_iff db pid s).mp hok with ⟨n, hn, p, hp, rfl⟩
  refine ⟨?_, ?_, ?_, ?_⟩ <;>
    simp [summaryBody, actionCountOf, shotsOf, passesOf, turnoversOf]

/-- Witness for C5 at the concrete store `dbA`, player id "1". -/
theorem C5_action_counts_witness :
    get_player_summary_stats dbA "1" = PyResult.ok (SummaryOutput.summary (summaryBody dbA pA1))
    ∧ (summaryBody dbA pA1).pickAndRollCount =
      ((dbA.shots.filter (fun e => e.player_id == (summaryBody dbA pA1).playerID)).filter
        (fun e => e.action_type == "pickAndRoll")).length +
      ((dbA.passes.filter (fun e => e.player_id == (summaryBody dbA pA1).playerID)).filter
        (fun e => e.action_type == "pickAndRoll")).length +
      ((dbA.turnovers.filter (fun e => e.player_id == (summaryBody dbA pA1).playerID)).filter
        (fun e => e.action_type == "pickAndRoll")).length :=
  ⟨by decide, (C5_action_counts dbA "1" (summaryBody dbA pA1) (by decide)).1⟩

/-- C10: in every summary returned by `get_player_summary_stats`, each
category's detail lists are consistent with its scalar metrics: the shots
list has length totalShotAttempts, the passes list has length
totalPasses, and the turnovers list has length totalTurnovers minus
totalPassingTurnovers (the standalone turnover count). -/
theorem C10_detail_list_consistency (db : Database) (pid : String) (s : PlayerSummary)
    (hok : get_player_summary_stats db pid = PyResult.ok (SummaryOutput.summary s)) :
    (s.pickAndRoll.shots.length = s.pickAndRoll.totalShotAttempts
      ∧ s.pickAndRoll.passes.length = s.pickAndRoll.totalPasses
      ∧ s.pickAndRoll.turnovers.length =
          s.pickAndRoll.totalTurnovers - s.pickAndRoll.totalPassingTurnovers)
    ∧ (s.isolation.shots.length = s.isolation.totalShotAttempts
      ∧ s.isolation.passes.length = s.isolation.totalPasses
      ∧ s.isolation.turnovers.length =
          s.isolation.totalTurnovers - s.isolation.totalPassingTurnovers)
    ∧ (s.postUp.shots.length = s.postUp.totalShotAttempts
      ∧ s.postUp.passes.length = s.postUp.totalPasses
      ∧ s.postUp.turnovers.length =
          s.postUp.totalTurnovers - s.postUp.totalPassingTurnovers)
    ∧ (s.offBallScreen.shots.length = s.offBallScreen.totalShotAttempts
      ∧ s.offBallScreen.passes.length = s.offBallScreen.totalPasses
      ∧ s.offBallScreen.turnovers.length =
          s.offBallScreen.totalTurnovers - s.offBallScreen.totalPassingTurnovers) := by
  rcases (summary_ok_iff db pid s).mp hok with ⟨n, hn, p, hp, rfl⟩
  exact ⟨breakdown_lists_consistent _ _ _ _, breakdown_lists_consistent _ _ _ _,
    breakdown_lists_consistent _ _ _ _, breakdown_lists_consistent _ _ _ _⟩

/-- Witness for C10 at the concrete store `dbA`, player id "1". -/
theorem C10_detail_list_consistency_witness :
    get_player_summary_stats dbA "1" = PyResult.ok (SummaryOutput.summary (summaryBody dbA pA1))
    ∧ ((summaryBody dbA pA1).pickAndRoll.shots.length =
        (summaryBody dbA pA1).pickAndRoll.totalShotAttempts
      ∧ (summaryBody dbA pA1).pickAndRoll.passes.length =
        (summaryBody dbA pA1).pickAndRoll.totalPasses
      ∧ (summaryBody dbA pA1).pickAndRoll.turnovers.length =
        (summaryBody dbA pA1).pickAndRoll.totalTurnovers -
          (summaryBody dbA pA1).pickAndRoll.totalPassingTurnovers) :=
  ⟨by decide, (C10_detail_list_consistency dbA "1" (summaryBody dbA pA1) (by decide)).1⟩

/-- C2 counterexample: with no restriction on action types the claimed
equality fails.  In `dbC2` the player's single shot has the unrecognized
action type "transition": `get_player_summary_stats` succeeds, the
overall totalShotAttempts is 1, yet the four category breakdowns sum to
0. -/
theorem C2_category_sums_counterexample :
    get_player_summary_stats dbC2 "7" = PyResult.ok (SummaryOutput.summary (summaryBody dbC2 pC2))
    ∧ (summaryBody dbC2 pC2).totalShotAttempts ≠
      (summaryBody dbC2 pC2).pickAndRoll.totalShotAttempts +
      (summaryBody dbC2 pC2).isolation.totalShotAttempts +
      (summaryBody dbC2 pC2).postUp.totalShotAttempts +
      (summaryBody dbC2 pC2).offBallScreen.totalShotAttempts := by
  constructor <;> decide

/-- C2, amended: for a player all of whose shot and pass rows carry one
of the four recognized action types, the overall totalShotAttempts,
totalPoints, totalPasses, totalPotentialAssists and totalPassingTurnovers
of the returned summary each equal the sum of the corresponding field
over the four category breakdowns. -/
theorem C2_category_sums (db : Database) (pid : String) (s : PlayerSummary)
    (hok : get_player_summary_stats db pid = PyResult.ok (SummaryOutput.summary s))
    (hshots : ∀ e ∈ db.shots, e.player_id = s.playerID →
      e.action_type = "pickAndRoll" ∨ e.action_type = "isolation" ∨
      e.action_type = "postUp" ∨ e.action_type = "offBallScreen")
    (hpasses : ∀ e ∈ db.passes, e.player_id = s.playerID →
      e.action_type = "pickAndRoll" ∨ e.action_type = "isolation" ∨
      e.action_type = "postUp" ∨ e.action_type = "offBallScreen") :
    (s.totalShotAttempts = s.pickAndRoll.totalShotAttempts + s.isolation.totalShotAttempts +
      s.postUp.totalShotAttempts + s.offBallScreen.totalShotAttempts)
    ∧ (s.totalPoints = s.pickAndRoll.totalPoints + s.isolation.totalPoints +
      s.postUp.totalPoints + s.offBallScreen.totalPoints)
    ∧ (s.totalPasses = s.pickAndRoll.totalPasses + s.isolation.totalPasses +
      s.postUp.totalPasses + s.offBallScreen.totalPasses)
    ∧ (s.totalPotentialAssists = s.pickAndRoll.totalPotentialAssists +
      s.isolation.totalPotentialAssists + s.postUp.totalPotentialAssists +
      s.offBallScreen.totalPotentialAssists)
    ∧ (s.totalPassingTurnovers = s.pickAndRoll.totalPassingTurnovers +
      s.isolation.totalPassingTurnovers + s.postUp.totalPassingTurnovers +
      s.offBallScreen.totalPassingTurnovers) := by
  rcases (summary_ok_iff db pid s).mp hok with ⟨n, hn, p, hp, rfl⟩
  have hsh : ∀ x ∈ shotsOf db p, x.action_type = "pickAndRoll" ∨ x.action_type = "isolation" ∨
      x.action_type = "postUp" ∨ x.action_type = "offBallScreen" := by
    intro x hx
    rw [shotsOf, List.mem_filter] at hx
    exact hshots x hx.1 (by simpa using hx.2)
  have hpa : ∀ x ∈ passesOf db p, x.action_type = "pickAndRoll" ∨ x.action_type = "isolation" ∨
      x.action_type = "postUp" ∨ x.action_type = "offBallScreen" := by
    intro x hx
    rw [passesOf, List.mem_filter] at hx
    exact hpasses x hx.1 (by simpa using hx.2)
  exact ⟨length_four_split (shotsOf db p) (fun x => x.action_type) hsh,
    sum_four_split (shotsOf db p) (fun x => x.action_type) Shot.points hsh,
    length_four_split (passesOf db p) (fun x => x.action_type) hpa,
    filtered_length_four_split (passesOf db p) (fun x => x.action_type)
      (fun x => x.potential_assist) hpa,
    filtered_length_four_split (passesOf db p) (fun x => x.action_type)
      (fun x => x.turnover) hpa⟩

/-- Witness for the amended C2 at the concrete store `dbA` (all action
types recognized), player id "1". -/
theorem C2_category_sums_witness :
    get_player_summary_stats dbA "1" = PyResult.ok (SummaryOutput.summary (summaryBody dbA pA1))
    ∧ ((summaryBody dbA pA1).totalShotAttempts =
        (summaryBody dbA pA1).pickAndRoll.totalShotAttempts +
        (summaryBody dbA pA1).isolation.totalShotAttempts +
        (summaryBody dbA pA1).postUp.totalShotAttempts +
        (summaryBody dbA pA1).offBallScreen.totalShotAttempts
      ∧ (summaryBody dbA pA1).totalPoints = (summaryBody dbA pA1).pickAndRoll.totalPoints +
        (summaryBody dbA pA1).isolation.totalPoints + (summaryBody dbA pA1).postUp.totalPoints +
        (summaryBody dbA pA1).offBallScreen.totalPoints
      ∧ (summaryBody dbA pA1).totalPasses = (summaryBody dbA pA1).pickAndRoll.totalPasses +
        (summaryBody dbA pA1).isolation.totalPasses + (summaryBody dbA pA1).postUp.totalPasses +
        (summaryBody dbA pA1).offBallScreen.totalPasses
      ∧ (summaryBody dbA pA1).totalPotentialAssists =
        (summaryBody dbA pA1).pickAndRoll.totalPotentialAssists +
        (summaryBody dbA pA1).isolation.totalPotentialAssists +
        (summaryBody dbA pA1).postUp.totalPotentialAssists +
        (summaryBody dbA pA1).offBallScreen.totalPotentialAssists
      ∧ (summaryBody dbA pA1).totalPassingTurnovers =
        (summaryBody dbA pA1).pickAndRoll.totalPassingTurnovers +
        (summaryBody dbA pA1).isolation.totalPassingTurnovers +
        (summaryBody dbA pA1).postUp.totalPassingTurnovers +
        (summaryBody dbA pA1).offBallScreen.totalPassingTurnovers) :=
  ⟨by decide, C2_category_sums dbA "1" (summaryBody dbA pA1) (by decide) (by decide) (by decide)⟩

/-- C4: an event whose action type is not one of the four category values
is counted in the overall scalar totals of the summary, appears in none of
the four category breakdowns, contributes to none of the four action
counts, and never causes `get_player_summary_stats` to reject: for any
resolvable id the function still returns a summary.  Stated for each of
the three event kinds by appending the event to the store. -/
theorem C4_unrecognized_action :
    (∀ (db : Database) (p : Player) (sh : Shot), sh.player_id = p.player_id →
      sh.action_type ∉ (["pickAndRoll", "isolation", "postUp", "offBallScreen"] : List String) →
      ((summaryBody { db with shots := db.shots ++ [sh] } p).totalShotAttempts =
        (summaryBody db p).totalShotAttempts + 1)
      ∧ ((summaryBody { db with shots := db.shots ++ [sh] } p).totalPoints =
        (summaryBody db p).totalPoints + sh.points)
      ∧ (summaryBody { db with shots := db.shots ++ [sh] } p).pickAndRoll =
        (summaryBody db p).pickAndRoll
      ∧ (summaryBody { db with shots := db.shots ++ [sh] } p).isolation =
        (summaryBody db p).isolation
      ∧ (summaryBody { db with shots := db.shots ++ [sh] } p).postUp =
        (summaryBody db p).postUp
      ∧ (summaryBody { db with shots := db.shots ++ [sh] } p).offBallScreen =
        (summaryBody db p).offBallScreen
      ∧ (summaryBody { db with shots := db.shots ++ [sh] } p).pickAndRollCount =
        (summaryBody db p).pickAndRollCount
      ∧ (summaryBody { db with shots := db.shots ++ [sh] } p).isolationCount =
        (summaryBody db p).isolationCount
      ∧ (summaryBody { db with shots := db.shots ++ [sh] } p).postUpCount =
        (summaryBody db p).postUpCount
      ∧ (summaryBody { db with shots := db.shots ++ [sh] } p).offBallScreenCount =
        (summaryBody db p).offBallScreenCount
      ∧ (∀ (pid : String) (n : Int), pyParseInt pid = some n →
          db.players.find? (fun q => q.player_id == n) = some p →
          get_player_summary_stats { db with shots := db.shots ++ [sh] } pid =
            PyResult.ok (SummaryOutput.summary (summaryBody { db with shots := db.shots ++ [sh] } p))))
    ∧ (∀ (db : Database) (p : Player) (pa : Pass), pa.player_id = p.player_id →
      pa.action_type ∉ (["pickAndRoll", "isolation", "postUp", "offBallScreen"] : List String) →
      ((summaryBody { db with passes := db.passes ++ [pa] } p).totalPasses =
        (summaryBody db p).totalPasses + 1)
      ∧ ((summaryBody { db with passes := db.passes ++ [pa] } p).totalPotentialAssists =
        (summaryBody db p).totalPotentialAssists + (if pa.potential_assist then 1 else 0))
      ∧ ((summaryBody { db with passes := db.passes ++ [pa] } p).totalPassingTurnovers =
        (summaryBody db p).totalPassingTurnovers + (if pa.turnover then 1 else 0))
      ∧ ((summaryBody { db with passes := db.passes ++ [pa] } p).totalTurnovers =
        (summaryBody db p).totalTurnovers + (if pa.turnover then 1 else 0))
      ∧ (summaryBody { db with passes := db.passes ++ [pa] } p).pickAndRoll =
        (summaryBody db p).pickAndRoll
      ∧ (summaryBody { db with passes := db.passes ++ [pa] } p).isolation =
        (summaryBody db p).isolation
      ∧ (summaryBody { db with passes := db.passes ++ [pa] } p).postUp =
        (summaryBody db p).postUp
      ∧ (summaryBody { db with passes := db.passes ++ [pa] } p).offBallScreen =
        (summaryBody db p).offBallScreen
      ∧ (summaryBody { db with passes := db.passes ++ [pa] } p).pickAndRollCount =
        (summaryBody db p).pickAndRollCount
      ∧ (summaryBody { db with passes := db.passes ++ [pa] } p).isolationCount =
        (summaryBody db p).isolationCount
      ∧ (summaryBody { db with passes := db.passes ++ [pa] } p).postUpCount =
        (summaryBody db p).postUpCount
      ∧ (summaryBody { db with passes := db.passes ++ [pa] } p).offBallScreenCount =
        (summaryBody db p).offBallScreenCount
      ∧ (∀ (pid : String) (n : Int), pyParseInt pid = some n →
          db.players.find? (fun q => q.player_id == n) = some p →
          get_player_summary_stats { db with passes := db.passes ++ [pa] } pid =
            PyResult.ok (SummaryOutput.summary (summaryBody { db with passes := db.passes ++ [pa] } p))))
    ∧ (∀ (db : Database) (p : Player) (tv : Turnover), tv.player_id = p.player_id →
      tv.action_type ∉ (["pickAndRoll", "isolation", "postUp", "offBallScreen"] : List String) →
      ((summaryBody { db with turnovers := db.turnovers ++ [tv] } p).totalTurnovers =
        (summaryBody db p).totalTurnovers + 1)
      ∧ (summaryBody { db with turnovers := db.turnovers ++ [tv] } p).pickAndRoll =
        (summaryBody db p).pickAndRoll
      ∧ (summaryBody { db with turnovers := db.turnovers ++ [tv] } p).isolation =
        (summaryBody db p).isolation
      ∧ (summaryBody { db with turnovers := db.turnovers ++ [tv] } p).postUp =
        (summaryBody db p).postUp
      ∧ (summaryBody { db with turnovers := db.turnovers ++ [tv] } p).offBallScreen =
        (summaryBody db p).offBallScreen
      ∧ (summaryBody { db with turnovers := db.turnovers ++ [tv] } p).pickAndRollCount =
        (summaryBody db p).pickAndRollCount
      ∧ (summaryBody { db with turnovers := db.turnovers ++ [tv] } p).isolationCount =
        (summaryBody db p).isolationCount
      ∧ (summaryBody { db with turnovers := db.turnovers ++ [tv] } p).postUpCount =
        (summaryBody db p).postUpCount
      ∧ (summaryBody { db with turnovers := db.turnovers ++ [tv] } p).offBallScreenCount =
        (summaryBody db p).offBallScreenCount
      ∧ (∀ (pid : String) (n : Int), pyParseInt pid = some n →
          db.players.find? (fun q => q.player_id == n) = some p →
          get_player_summary_stats { db with turnovers := db.turnovers ++ [tv] } pid =
            PyResult.ok (SummaryOutput.summary (summaryBody { db with turnovers := db.turnovers ++ [tv] } p)))) := by
  refine ⟨fun db p sh hpl hact => ?_, fun db p pa hpl hact => ?_, fun db p tv hpl hact => ?_⟩
  · obtain ⟨hne1, hne2, hne3, hne4⟩ :
        sh.action_type ≠ "pickAndRoll" ∧ sh.action_type ≠ "isolation" ∧
        sh.action_type ≠ "postUp" ∧ sh.action_type ≠ "offBallScreen" := by
      simpa using hact
    have hb1 : (sh.action_type == "pickAndRoll") = false := beq_eq_false_iff_ne.mpr hne1
    have hb2 : (sh.action_type == "isolation") = false := beq_eq_false_iff_ne.mpr hne2
    have hb3 : (sh.action_type == "postUp") = false := beq_eq_false_iff_ne.mpr hne3
    have hb4 : (sh.action_type == "offBallScreen") = false := beq_eq_false_iff_ne.mpr hne4
    have hbp : (sh.player_id == p.player_id) = true := beq_iff_eq.mpr hpl
    refine ⟨?_, ?_, ?_, ?_, ?_, ?_, ?_, ?_, ?_, ?_, ?_⟩
    · simp [summaryBody, shotsOf, List.filter_append, hbp]
    · simp [summaryBody, shotsOf, List.filter_append, hbp]
    · simp [summaryBody, get_action_stats, shotsOf, passesOf, turnoversOf,
        List.filter_append, hbp, hb1]
    · simp [summaryBody, get_action_stats, shotsOf, passesOf, turnoversOf,
        List.filter_append, hbp, hb2]
    · simp [summaryBody, get_action_stats, shotsOf, passesOf, turnoversOf,
        List.filter_append, hbp, hb3]
    · simp [summaryBody, get_action_stats, shotsOf, passesOf, turnoversOf,
        List.filter_append, hbp, hb4]
    · simp [summaryBody, actionCountOf, shotsOf, passesOf, turnoversOf,
        List.filter_append, hbp, hb1]
    · simp [summaryBody, actionCountOf, shotsOf, passesOf, turnoversOf,
        List.filter_append, hbp, hb2]
    · simp [summaryBody, actionCountOf, shotsOf, passesOf, turnoversOf,
        List.filter_append, hbp, hb3]
    · simp [summaryBody, actionCountOf, shotsOf, passesOf, turnoversOf,
        List.filter_append, hbp, hb4]
    · intro pid n hn hfind
      simp [get_player_summary_stats, hn, hfind]
  · obtain ⟨hne1, hne2, hne3, hne4⟩ :
        pa.action_type ≠ "pickAndRoll" ∧ pa.action_type ≠ "isolation" ∧
        pa.action_type ≠ "postUp" ∧ pa.action_type ≠ "offBallScreen" := by
      simpa using hact
    have hb1 : (pa.action_type == "pickAndRoll") = false := beq_eq_false_iff_ne.mpr hne1
    have hb2 : (pa.action_type == "isolation") = false := beq_eq_false_iff_ne.mpr hne2
    have hb3 : (pa.action_type == "postUp") = false := beq_eq_false_iff_ne.mpr hne3
    have hb4 : (pa.action_type == "offBallScreen") = false := beq_eq_false_iff_ne.mpr hne4
    have hbp : (pa.player_id == p.player_id) = true := beq_iff_eq.mpr hpl
    refine ⟨?_, ?_, ?_, ?_, ?_, ?_, ?_, ?_, ?_, ?_, ?_, ?_, ?_⟩
    · simp [summaryBody, passesOf, List.filter_append, hbp]
    · cases hq : pa.potential_assist <;>
        simp [summaryBody, passesOf, List.filter_append, hbp, hq]
    · cases hq : pa.turnover <;>
        simp [summaryBody, passesOf, List.filter_append, hbp, hq]
    · cases hq : pa.turnover <;>
        simp [summaryBody, passesOf, turnoversOf, List.filter_append, hbp, hq] <;> omega
    · simp [summaryBody, get_action_stats, shotsOf, passesOf, turnoversOf,
        List.filter_append, hbp, hb1]
    · simp [summaryBody, get_action_stats, shotsOf, passesOf, turnoversOf,
        List.filter_append, hbp, hb2]
    · simp [summaryBody, get_action_stats, shotsOf, passesOf, turnoversOf,
        List.filter_append, hbp, hb3]
    · simp [summaryBody, get_action_stats, shotsOf, passesOf, turnoversOf,
        List.filter_append, hbp, hb4]
    · simp [summaryBody, actionCountOf, shotsOf, passesOf, turnoversOf,
        List.filter_append, hbp, hb1]
    · simp [summaryBody, actionCountOf, shotsOf, passesOf, turnoversOf,
        List.filter_append, hbp, hb2]
    · simp [summaryBody, actionCountOf, shotsOf, passesOf, turnoversOf,
        List.filter_append, hbp, hb3]
    · simp [summaryBody, actionCountOf, shotsOf, passesOf, turnoversOf,
        List.filter_append, hbp, hb4]
    · intro pid n hn hfind
      simp [get_player_summary_stats, hn, hfind]
  · obtain ⟨hne1, hne2, hne3, hne4⟩ :
        tv.action_type ≠ "pickAndRoll" ∧ tv.action_type ≠ "isolation" ∧
        tv.action_type ≠ "postUp" ∧ tv.action_type ≠ "offBallScreen" := by
      simpa using hact
    have hb1 : (tv.action_type == "pickAndRoll") = false := beq_eq_false_iff_ne.mpr hne1
    have hb2 : (tv.action_type == "isolation") = false := beq_eq_false_iff_ne.mpr hne2
    have hb3 : (tv.action_type == "postUp") = false := beq_eq_false_iff_ne.mpr hne3
    have hb4 : (tv.action_type == "offBallScreen") = false := beq_eq_false_iff_ne.mpr hne4
    have hbp : (tv.player_id == p.player_id) = true := beq_iff_eq.mpr hpl
    refine ⟨?_, ?_, ?_, ?_, ?_, ?_, ?_, ?_, ?_, ?_⟩
    · simp [summaryBody, passesOf, turnoversOf, List.filter_append, hbp]
      omega
    · simp [summaryBody, get_action_stats, shotsOf, passesOf, turnoversOf,
        List.filter_append, hbp, hb1]
    · simp [summaryBody, get_action_stats, shotsOf, passesOf, turnoversOf,
        List.filter_append, hbp, hb2]
    · simp [summaryBody, get_action_stats, shotsOf, passesOf, turnoversOf,
        List.filter_append, hbp, hb3]
    · simp [summaryBody, get_action_stats, shotsOf, passesOf, turnoversOf,
        List.filter_append, hbp, hb4]
    · simp [summaryBody, actionCountOf, shotsOf, passesOf, turnoversOf,
        List.filter_append, hbp, hb1]
    · simp [summaryBody, actionCountOf, shotsOf, passesOf, turnoversOf,
        List.filter_append, hbp, hb2]
    · simp [summaryBody, actionCountOf, shotsOf, passesOf, turnoversOf,
        List.filter_append, hbp, hb3]
    · simp [summaryBody, actionCountOf, shotsOf, passesOf, turnoversOf,
        List.filter_append, hbp, hb4]
    · intro pid n hn hfind
      simp [get_player_summary_stats, hn, hfind]

/-- Witness for C4: the unrecognized-action shot, pass and turnover
`shC4`, `paC4`, `tvC4` appended to `dbA`, checked for player 1. -/
theorem C4_unrecognized_action_witness :
    shC4.player_id = pA1.player_id
    ∧ shC4.action_type ∉ (["pickAndRoll", "isolation", "postUp", "offBallScreen"] : List String)
    ∧ (summaryBody { dbA with shots := dbA.shots ++ [shC4] } pA1).totalShotAttempts =
      (summaryBody dbA pA1).totalShotAttempts + 1
    ∧ (summaryBody { dbA with shots := dbA.shots ++ [shC4] } pA1).pickAndRoll =
      (summaryBody dbA pA1).pickAndRoll
    ∧ get_player_summary_stats { dbA with shots := dbA.shots ++ [shC4] } "1" =
      PyResult.ok (SummaryOutput.summary (summaryBody { dbA with shots := dbA.shots ++ [shC4] } pA1))
    ∧ (summaryBody { dbA with passes := dbA.passes ++ [paC4] } pA1).totalPasses =
      (summaryBody dbA pA1).totalPasses + 1
    ∧ (summaryBody { dbA with turnovers := dbA.turnovers ++ [tvC4] } pA1).totalTurnovers =
      (summaryBody dbA pA1).totalTurnovers + 1 := by
  refine ⟨by decide, by decide, ?_, ?_, ?_, ?_, ?_⟩
  · exact (C4_unrecognized_action.1 dbA pA1 shC4 (by decide) (by decide)).1
  · exact (C4_unrecognized_action.1 dbA pA1 shC4 (by decide) (by decide)).2.2.1
  · exact (C4_unrecognized_action.1 dbA pA1 shC4 (by decide)
      (by decide)).2.2.2.2.2.2.2.2.2.2 "1" 1 (by decide) (by decide)
  · exact (C4_unrecognized_action.2.1 dbA pA1 paC4 (by decide) (by decide)).1
  · exact (C4_unrecognized_action.2.2 dbA pA1 tvC4 (by decide) (by decide)).1

/-- C6 counterexample: the id string "abc" does not resolve to a player,
yet `get_player_summary_stats` does not return the error value — the
uncaught `ValueError` from `int(player_id)` escapes instead (the `except`
clause only catches `Player.DoesNotExist`). -/
theorem C6_not_found_counterexample :
    get_player_summary_stats dbA "abc" = PyResult.exn "ValueError"
    ∧ ¬ get_player_summary_stats dbA "abc" = PyResult.ok (SummaryOutput.errorDict "abc") := by
  constructor <;> decide

/-- C6, amended: for every id string that parses as an integer,
`get_player_summary_stats` returns the PlayerNotFound error dict carrying
the requested id — as a value, never an exception — when no player row
matches, never a summary in that case, and the player's summary when one
matches; an id string that is not an integer literal instead escapes with
an uncaught ValueError. -/
theorem C6_not_found (db : Database) (pid : String) :
    (pyParseInt pid = none →
      get_player_summary_stats db pid = PyResult.exn "ValueError")
    ∧ (∀ n : Int, pyParseInt pid = some n →
      (db.players.find? (fun p => p.player_id == n) = none →
        get_player_summary_stats db pid = PyResult.ok (SummaryOutput.errorDict pid))
      ∧ (db.players.find? (fun p => p.player_id == n) = none →
        ∀ s : PlayerSummary,
          get_player_summary_stats db pid ≠ PyResult.ok (SummaryOutput.summary s))
      ∧ (∀ p : Player, db.players.find? (fun q => q.player_id == n) = some p →
        get_player_summary_stats db pid =
          PyResult.ok (SummaryOutput.summary (summaryBody db p)))) := by
  constructor
  · intro h
    simp [get_player_summary_stats, h]
  · intro n hn
    refine ⟨?_, ?_, ?_⟩
    · intro h
      simp [get_player_summary_stats, hn, h]
    · intro h s
      simp [get_player_summary_stats, hn, h]
    · intro p h
      simp [get_player_summary_stats, hn, h]

/-- Witness for the amended C6 on `dbA`: a non-numeric id escapes with the
exception, an unknown numeric id yields the error dict carrying the id,
and a known id yields the summary. -/
theorem C6_not_found_witness :
    pyParseInt "abc" = none
    ∧ get_player_summary_stats dbA "abc" = PyResult.exn "ValueError"
    ∧ pyParseInt "99" = some 99
    ∧ get_player_summary_stats dbA "99" = PyResult.ok (SummaryOutput.errorDict "99")
    ∧ get_player_summary_stats dbA "1" =
      PyResult.ok (SummaryOutput.summary (summaryBody dbA pA1)) :=
  ⟨by decide, (C6_not_found dbA "abc").1 (by decide), by decide,
   ((C6_not_found dbA "99").2 99 (by decide)).1 (by decide),
   ((C6_not_found dbA "1").2 1 (by decide)).2.2 pA1 (by decide)⟩

/-- C7: the worked example.  A player with exactly three pick-and-roll
shots worth 2, 2, 3 points and one isolation shot worth 0 points, and no
passes or turnovers, gets totalShotAttempts 4, totalPoints 7,
pickAndRoll.totalPoints 7, isolation.totalPoints 0, pickAndRollCount 3,
isolationCount 1, postUpCount 0 and offBallScreenCount 0. -/
theorem C7_worked_example :
    get_player_summary_stats dbC7 "5" = PyResult.ok (SummaryOutput.summary (summaryBody dbC7 pC7))
    ∧ (summaryBody dbC7 pC7).totalShotAttempts = 4
    ∧ (summaryBody dbC7 pC7).totalPoints = 7
    ∧ (summaryBody dbC7 pC7).pickAndRoll.totalPoints = 7
    ∧ (summaryBody dbC7 pC7).isolation.totalPoints = 0
    ∧ (summaryBody dbC7 pC7).pickAndRollCount = 3
    ∧ (summaryBody dbC7 pC7).isolationCount = 1
    ∧ (summaryBody dbC7 pC7).postUpCount = 0
    ∧ (summaryBody dbC7 pC7).offBallScreenCount = 0 := by
  refine ⟨?_, ?_, ?_, ?_, ?_, ?_, ?_, ?_, ?_⟩ <;> decide

/-- C8: calling `get_player_summary_stats` twice against an unchanged
store yields identical results, and for a fixed set of event rows the
summary's scalar aggregates do not depend on the order in which the store
returns the rows — any permutation of the three event tables leaves the
name, id, all overall scalars, all action counts and every category's
scalar metrics unchanged (only the detail lists may reorder). -/
theorem C8_deterministic (db : Database) (pid : String)
    (shots2 : List Shot) (passes2 : List Pass) (tovs2 : List Turnover)
    (hs : db.shots.Perm shots2) (hp : db.passes.Perm passes2) (ht : db.turnovers.Perm tovs2) :
    get_player_summary_stats db pid = get_player_summary_stats db pid
    ∧ ∀ p : Player, scalarsAgree (summaryBody db p)
        (summaryBody { db with shots := shots2, passes := passes2, turnovers := tovs2 } p) := by
  refine ⟨rfl, fun p => ?_⟩
  have lsh1 : ∀ pr : Shot → Bool,
      (List.filter pr db.shots).length = (List.filter pr shots2).length :=
    fun pr => (hs.filter pr).length_eq
  have lsh2 : ∀ pr pr2 : Shot → Bool,
      ((List.filter pr db.shots).filter pr2).length = ((List.filter pr shots2).filter pr2).length :=
    fun pr pr2 => ((hs.filter pr).filter pr2).length_eq
  have ssh1 : ∀ pr : Shot → Bool,
      ((List.filter pr db.shots).map Shot.points).sum =
        ((List.filter pr shots2).map Shot.points).sum :=
    fun pr => ((hs.filter pr).map Shot.points).sum_eq
  have ssh2 : ∀ pr pr2 : Shot → Bool,
      (((List.filter pr db.shots).filter pr2).map Shot.points).sum =
        (((List.filter pr shots2).filter pr2).map Shot.points).sum :=
    fun pr pr2 => (((hs.filter pr).filter pr2).map Shot.points).sum_eq
  have lpa1 : ∀ pr : Pass → Bool,
      (List.filter pr db.passes).length = (List.filter pr passes2).length :=
    fun pr => (hp.filter pr).length_eq
  have lpa2 : ∀ pr pr2 : Pass → Bool,
      ((List.filter pr db.passes).filter pr2).length =
        ((List.filter pr passes2).filter pr2).length :=
    fun pr pr2 => ((hp.filter pr).filter pr2).length_eq
  have lpa3 : ∀ pr pr2 pr3 : Pass → Bool,
      (((List.filter pr db.passes).filter pr2).filter pr3).length =
        (((List.filter pr passes2).filter pr2).filter pr3).length :=
    fun pr pr2 pr3 => (((hp.filter pr).filter pr2).filter pr3).length_eq
  have ltv1 : ∀ pr : Turnover → Bool,
      (List.filter pr db.turnovers).length = (List.filter pr tovs2).length :=
    fun pr => (ht.filter pr).length_eq
  have ltv2 : ∀ pr pr2 : Turnover → Bool,
      ((List.filter pr db.turnovers).filter pr2).length =
        ((List.filter pr tovs2).filter pr2).length :=
    fun pr pr2 => ((ht.filter pr).filter pr2).length_eq
  simp [scalarsAgree, breakdownScalarsAgree, summaryBody, get_action_stats, actionCountOf,
    shotsOf, passesOf, turnoversOf, lsh1, lsh2, ssh1, ssh2, lpa1, lpa2, lpa3, ltv1, ltv2]

/-- Witness for C8: reversing all three event tables of `dbA` is a
permutation, and player 1's scalar aggregates are unchanged. -/
theorem C8_deterministic_witness :
    dbA.shots.Perm dbA.shots.reverse
    ∧ dbA.passes.Perm dbA.passes.reverse
    ∧ dbA.turnovers.Perm dbA.turnovers.reverse
    ∧ get_player_summary_stats dbA "1" = get_player_summary_stats dbA "1"
    ∧ scalarsAgree (summaryBody dbA pA1)
        (summaryBody
          { dbA with
            shots := dbA.shots.reverse
            passes := dbA.passes.reverse
            turnovers := dbA.turnovers.reverse } pA1) := by
  have h := C8_deterministic dbA "1" dbA.shots.reverse dbA.passes.reverse dbA.turnovers.reverse
    (List.reverse_perm dbA.shots).symm (List.reverse_perm dbA.passes).symm
    (List.reverse_perm dbA.turnovers).symm
  exact ⟨(List.reverse_perm dbA.shots).symm, (List.reverse_perm dbA.passes).symm,
    (List.reverse_perm dbA.turnovers).symm, h.1, h.2 pA1⟩

/-- C9: the rank set returned by `get_ranks` does not depend on the
`player_id` argument at all — any two id strings give identical results
for the same store and summary dict — and absent metric keys are read as
0: filling every absent key with an explicit 0 changes nothing. -/
theorem C9_ranks_ignore_player_id :
    (∀ (db : Database) (id1 id2 : String) (t : RankTargets),
      get_ranks db id1 t = get_ranks db id2 t)
    ∧ (∀ (db : Database) (id : String) (t : RankTargets),
      get_ranks db id t = get_ranks db id (fillAbsent t)) :=
  ⟨fun _ _ _ _ => rfl, fun _ _ _ => rfl⟩

end OkcStats
